import Mathlib

/-
Verification of the task-scheduler core (business/domain/scheduler) against its
specification.  The Go source is shallowly embedded: pure fragments become Lean
functions, effectful handlers become functions returning an explicit record of
the effects they perform (acknowledgements, store writes, queue publishes), and
the concurrent executor pool and the per-task retry pipeline become explicit
transition systems with reachability relations.
-/

namespace TaskSched

/-- Task status, mirroring `task.Status` in business/domain/task/status.go:
`StatusPending = iota`, then `StatusFailed`, then `StatusCompleted`. -/
inductive Status where
  | pending
  | failed
  | completed
deriving DecidableEq, Repr

/-- Task record, mirroring `task.Task` in business/domain/task/models.go
(fields used by the scheduler: Id, UserId, Command, Args, Image, Environment,
Status, Result, ErrMessage, ScheduledAt, CreatedAt, UpdatedAt).  Ids are
modelled as naturals, instants as integers (nanoseconds, like Go time). -/
structure Task where
  id : Nat
  userId : Nat
  command : String
  args : List String
  image : String
  environment : String
  status : Status
  result : String
  errMessage : String
  scheduledAt : Int
  createdAt : Int
  updatedAt : Int
deriving DecidableEq, Repr

/-- The four queues declared in scheduler.go: `queue_tasks`, `queue_success`,
`queue_failed`, `queue_retry`. -/
inductive Queue where
  | tasks
  | success
  | failed
  | retry
deriving DecidableEq, Repr

/-- The retry store (business/domain/scheduler/store/redis/redis.go): a keyed
counter `taskId -> retries`, modelled as an association list. -/
abbrev RetryStore := List (Nat × Nat)

/-- `Repository.Get`: `HGET tasks:id retries`; a missing key is the `redis.Nil`
sentinel, modelled as `none`. -/
def retryGet (store : RetryStore) (taskId : Nat) : Option Nat :=
  match store with
  | [] => none
  | (k, v) :: rest => if k = taskId then some v else retryGet rest taskId

/-- `Repository.Update`: `HSET tasks:id retries n` overwrites (or creates) the
counter for `taskId`. -/
def retryUpdate (store : RetryStore) (taskId : Nat) (n : Nat) : RetryStore :=
  match store with
  | [] => [(taskId, n)]
  | (k, v) :: rest =>
      if k = taskId then (taskId, n) :: rest else (k, v) :: retryUpdate rest taskId n

/-- `Repository.Delete`: `DEL tasks:id` removes the counter for `taskId`. -/
def retryDelete (store : RetryStore) (taskId : Nat) : RetryStore :=
  match store with
  | [] => []
  | (k, v) :: rest =>
      if k = taskId then rest else (k, v) :: retryDelete rest taskId

/-- A queue delivery body.  `json.Unmarshal` either decodes the bytes to a
task or fails; bodies are modelled up to that distinction. -/
inductive MsgBody where
  | task (t : Task)
  | malformed (tag : Nat)
deriving DecidableEq, Repr

/-- `Scheduler.parseTask` (scheduler.go): `json.Unmarshal` of the body into a
`task.Task`, returning an error on malformed bytes. -/
def parseTask : MsgBody → Option Task
  | .task t => some t
  | .malformed _ => none

/-- Effects performed by one run of `handleRetryMessage`: whether the delivery
was acked, the retry store afterwards, and the queue publishes made (in
order). -/
structure RetryEffects where
  acked : Bool
  store : RetryStore
  published : List (Queue × Task)
deriving DecidableEq, Repr

/-- `Scheduler.handleRetryMessage` (scheduler.go lines 369-419), with broker
and store operations succeeding: ack the delivery first; decode the body (on
failure, log and return); read the retry counter, treating `redis.Nil` as 0;
increment; if the count exceeds `maxRetries` publish the task to
`queue_failed` and return without writing the counter; otherwise write the
incremented counter back and publish the task to `queue_tasks`. -/
def handleRetryMessage (maxRetries : Nat) (store : RetryStore) (body : MsgBody) :
    RetryEffects :=
  match parseTask body with
  | none => { acked := true, store := store, published := [] }
  | some tsk =>
      let retries := (retryGet store tsk.id).getD 0 + 1
      if retries > maxRetries then
        { acked := true, store := store, published := [(Queue.failed, tsk)] }
      else
        { acked := true
          store := retryUpdate store tsk.id retries
          published := [(Queue.tasks, tsk)] }

/-- A concrete task used to instantiate witnesses. -/
def sampleTask : Task :=
  { id := 5
    userId := 1
    command := "date"
    args := []
    image := "alpine:3.20"
    environment := "APP_NAME=test"
    status := Status.pending
    result := ""
    errMessage := ""
    scheduledAt := 0
    createdAt := 0
    updatedAt := 0 }

/-- C1: a retry delivery that decodes to task `t` is acked; the counter for
`t.id` is read with `NotFound` as 0 and incremented to `n`; if `n > maxRetries`
the task goes to the failed queue and the store is not written; otherwise `n`
is written back and the task goes to the tasks queue. -/
theorem c1_handleRetryMessage_spec (maxRetries : Nat) (store : RetryStore)
    (body : MsgBody) (t : Task) (hparse : parseTask body = some t) :
    (handleRetryMessage maxRetries store body).acked = true ∧
    ((retryGet store t.id).getD 0 + 1 > maxRetries →
      handleRetryMessage maxRetries store body =
        { acked := true, store := store, published := [(Queue.failed, t)] }) ∧
    ((retryGet store t.id).getD 0 + 1 ≤ maxRetries →
      handleRetryMessage maxRetries store body =
        { acked := true
          store := retryUpdate store t.id ((retryGet store t.id).getD 0 + 1)
          published := [(Queue.tasks, t)] }) := by
  unfold handleRetryMessage
  rw [hparse]
  simp only
  constructor
  · split <;> rfl
  · constructor
    · intro h
      rw [if_pos h]
    · intro h
      rw [if_neg (by omega)]

/-- Witness for C1 at a concrete input: empty store, `maxRetries = 2`, a
well-formed body; the incremented counter 1 is written back and the task is
republished to the tasks queue. -/
theorem c1_handleRetryMessage_spec_witness :
    (handleRetryMessage 2 [] (MsgBody.task sampleTask)).acked = true ∧
    handleRetryMessage 2 [] (MsgBody.task sampleTask) =
      { acked := true
        store := [(5, 1)]
        published := [(Queue.tasks, sampleTask)] } := by
  have h := c1_handleRetryMessage_spec 2 [] (MsgBody.task sampleTask) sampleTask rfl
  refine ⟨h.1, ?_⟩
  have h2 := h.2.2 (by decide)
  rw [h2]
  rfl

/-- State of the executor pool: `tokens` is the number of tokens in the `sem`
channel, `running` the number of live executor goroutines.  `New`
(scheduler.go lines 72-75) creates `sem` with capacity `MaxRunningTask` and
fills it with exactly `MaxRunningTask` tokens. -/
structure PoolState where
  tokens : Nat
  running : Nat
deriving DecidableEq, Repr

/-- Pool state right after `New`: the semaphore holds `maxRunning` tokens and
no executor is running. -/
def initPool (maxRunning : Nat) : PoolState :=
  { tokens := maxRunning, running := 0 }

/-- Pool transitions from scheduler.go: `submitTask` receives one token from
`s.sem` (line 174) before registering the executer and spawning its goroutine
(lines 199-254); the executor's deferred cleanup (lines 203-211) sends exactly
one token back to `s.sem` on every exit path. -/
inductive PoolStep : PoolState → PoolState → Prop
  | submit (tokens running : Nat) :
      PoolStep ⟨tokens + 1, running⟩ ⟨tokens, running + 1⟩
  | finish (tokens running : Nat) :
      PoolStep ⟨tokens, running + 1⟩ ⟨tokens + 1, running⟩

/-- States of the executor pool reachable from the freshly constructed
scheduler. -/
inductive PoolReachable (maxRunning : Nat) : PoolState → Prop
  | init : PoolReachable maxRunning (initPool maxRunning)
  | step (s s' : PoolState) :
      PoolReachable maxRunning s → PoolStep s s' → PoolReachable maxRunning s'

/-- Token conservation: in every reachable pool state the semaphore tokens and
the running executors sum to `maxRunning`. -/
lemma pool_tokens_add_running (maxRunning : Nat) (s : PoolState)
    (h : PoolReachable maxRunning s) : s.tokens + s.running = maxRunning := by
  induction h with
  | init => simp [initPool]
  | step s s' _ hstep ih =>
      cases hstep with
      | submit tokens running => simp at ih ⊢; omega
      | finish tokens running => simp at ih ⊢; omega

/-- C2: in every execution history of the executor pool the number of
concurrently running executors never exceeds `maxRunning`: a token is acquired
before each spawn and returned exactly once on every executor exit. -/
theorem c2_bounded_concurrency (maxRunning : Nat) (s : PoolState)
    (h : PoolReachable maxRunning s) : s.running ≤ maxRunning := by
  have := pool_tokens_add_running maxRunning s h
  omega

/-- Witness for C2 at a concrete history: with `maxRunning = 2`, after one
submit the state `(1 token, 1 running)` is reachable and `1 ≤ 2`. -/
theorem c2_bounded_concurrency_witness :
    PoolReachable 2 ⟨1, 1⟩ ∧ (PoolState.mk 1 1).running ≤ 2 := by
  have hreach : PoolReachable 2 ⟨1, 1⟩ :=
    PoolReachable.step (initPool 2) ⟨1, 1⟩ (PoolReachable.init) (PoolStep.submit 1 0)
  exact ⟨hreach, c2_bounded_concurrency 2 ⟨1, 1⟩ hreach⟩

/-- Nanoseconds per second; Go's `time.Duration` counts nanoseconds. -/
def nsPerSecond : Int := 1000000000

/-- The floor `time.Second * 30` applied to `maxTimeForTaskExecution` in
`submitTask` (scheduler.go lines 180-183). -/
def minExecutionTime : Int := 30 * nsPerSecond

/-- scheduler.go lines 181-183: a configured `maxTimeForTaskExecution` below
30 seconds is raised to 30 seconds. -/
def effectiveMaxExecTime (maxExec : Int) : Int :=
  if maxExec < minExecutionTime then minExecutionTime else maxExec

/-- The cancellation context an executor runs under:
`context.WithDeadline(context.Background(), deadline)` (scheduler.go line
189), so its parent is `context.Background()` and its deadline is the
admission instant plus the effective max execution time.  `submitTask`
(line 169) takes no caller context at all. -/
structure ExecContext where
  parentIsBackground : Bool
  deadline : Int
deriving DecidableEq, Repr

/-- scheduler.go lines 186-189: `deadline := time.Now().Add(s.maxTimeForTaskExecution)`
after the 30 s floor, then `context.WithDeadline(context.Background(), deadline)`.
`now` is the admission instant (just after the semaphore acquire). -/
def executerContext (now : Int) (maxExec : Int) : ExecContext :=
  { parentIsBackground := true, deadline := now + effectiveMaxExecTime maxExec }

/-- C7: the executor context is rooted at the background context with deadline
`admission time + maxExecutionTime`, where a configured value below 30 s is
raised to 30 s; no caller-supplied deadline enters the computation. -/
theorem c7_executer_deadline (now maxExec : Int) :
    (executerContext now maxExec).parentIsBackground = true ∧
    (executerContext now maxExec).deadline = now + effectiveMaxExecTime maxExec ∧
    (maxExec < minExecutionTime →
      (executerContext now maxExec).deadline = now + minExecutionTime) ∧
    (minExecutionTime ≤ maxExec →
      (executerContext now maxExec).deadline = now + maxExec) ∧
    now + minExecutionTime ≤ (executerContext now maxExec).deadline := by
  unfold executerContext effectiveMaxExecTime
  refine ⟨rfl, rfl, ?_, ?_, ?_⟩
  · intro h; rw [if_pos h]
  · intro h; rw [if_neg (by omega)]
  · split <;> dsimp only <;> omega

/-- Observable steps of the tasks-consumer loop, in order. -/
inductive TEvent where
  | ack
  | submit (t : Task)
deriving DecidableEq, Repr

/-- One iteration of the `ConsumeTasks` loop body (scheduler.go lines
146-161), with the broker ack succeeding: `msg.Ack(false)` first, then
`parseTask`; on decode failure the message is dropped (log, `continue`) and
nothing is submitted; otherwise the task is submitted to the executor pool. -/
def consumeTasksStep (body : MsgBody) : List TEvent :=
  TEvent.ack ::
    (match parseTask body with
     | none => []
     | some t => [TEvent.submit t])

/-- The tasks-consumer loop over a stream of deliveries (shutdown not
observed): each delivery is processed by `consumeTasksStep` and the loop
continues with the next delivery. -/
def consumeTasksLoop : List MsgBody → List TEvent
  | [] => []
  | m :: rest => consumeTasksStep m ++ consumeTasksLoop rest

/-- C8: every delivery is acked before decoding is attempted; a delivery whose
body fails to decode is dropped — already acked, never submitted to the
executor pool — and the consumer continues with the next delivery. -/
theorem c8_consume_ack_then_drop (body : MsgBody) (h : parseTask body = none) :
    (∀ b : MsgBody, (consumeTasksStep b).head? = some TEvent.ack) ∧
    (∀ t : Task, TEvent.submit t ∉ consumeTasksStep body) ∧
    (∀ rest : List MsgBody,
      consumeTasksLoop (body :: rest) = TEvent.ack :: consumeTasksLoop rest) := by
  refine ⟨fun b => rfl, ?_, ?_⟩
  · intro t
    simp [consumeTasksStep, h]
  · intro rest
    simp [consumeTasksLoop, consumeTasksStep, h]

/-- Witness for C8 at a concrete malformed body. -/
theorem c8_consume_ack_then_drop_witness :
    parseTask (MsgBody.malformed 0) = none ∧
    TEvent.submit sampleTask ∉ consumeTasksStep (MsgBody.malformed 0) ∧
    consumeTasksLoop [MsgBody.malformed 0, MsgBody.task sampleTask] =
      TEvent.ack :: consumeTasksLoop [MsgBody.task sampleTask] := by
  have h := c8_consume_ack_then_drop (MsgBody.malformed 0) rfl
  exact ⟨rfl, h.2.1 sampleTask, h.2.2 [MsgBody.task sampleTask]⟩

/-- `MonitorScheduledTasks` loop (scheduler.go lines 342-362), with publishes
succeeding: each tick calls `GetAllDueTasks`; on error the goroutine logs and
`return`s — ending the loop for good — otherwise it publishes every returned
task to `queue_tasks` and waits for the next tick.  The argument is the
sequence of per-tick query results; the value is every task the monitor ever
publishes, in order. -/
def monitorLoop : List (Except Unit (List Task)) → List Task
  | [] => []
  | Except.error _ :: _ => []
  | Except.ok due :: rest => due ++ monitorLoop rest

/-- C10: if `GetAllDueTasks` errors on some tick, the monitor goroutine
returns permanently: nothing after that tick is processed (the output does not
depend on the later tick results), and the erroring tick itself publishes
nothing. -/
theorem c10_monitor_stops_on_error (pre : List (Except Unit (List Task)))
    (e : Unit) (rest rest' : List (Except Unit (List Task))) :
    monitorLoop (pre ++ Except.error e :: rest) =
      monitorLoop (pre ++ [Except.error e]) ∧
    monitorLoop (Except.error e :: rest') = [] := by
  constructor
  · induction pre with
    | nil => simp [monitorLoop]
    | cons hd tl ih =>
        cases hd with
        | error u => simp [monitorLoop]
        | ok due => simp [monitorLoop, ih]
  · rfl

/-- Per-task view of the retry pipeline for one `taskId`: messages for the
task on `queue_tasks` and `queue_retry`, its `RetryStore` entry, the number of
`docker.RunCommand` invocations performed for it, and whether its `TaskStore`
record is still pending. -/
structure TaskPipeline where
  tasksQ : Nat
  retryQ : Nat
  counter : Option Nat
  runs : Nat
  pending : Bool
deriving DecidableEq, Repr

/-- Pipeline state after the task is created and enqueued once onto
`queue_tasks` (task.go lines 68-79): one tasks message, no retry message, no
retry counter, no sandbox run, record pending. -/
def initPipeline : TaskPipeline :=
  { tasksQ := 1, retryQ := 0, counter := none, runs := 0, pending := true }

/-- Per-task transitions of the scheduler, from scheduler.go.  The `monitorOn`
index is `true` when the `MonitorScheduledTasks` sweeper is running.
`execSuccess`/`execFail`: the tasks consumer hands a delivery to an executor,
which invokes `docker.RunCommand` once (line 231) and publishes the outcome to
`queue_success` or `queue_retry` (lines 233-253).
`retryKeep`/`retryDrop`: `handleRetryMessage` (lines 398-417) increments the
counter and republishes to `queue_tasks`, or gives up to `queue_failed`.
`markTerminal`: an outcome consumer persists a terminal status.
`monitorPublish`: the Monitor republishes a task whose record is still pending
and due (lines 355-360). -/
inductive PipeStep (maxRetries : Nat) : Bool → TaskPipeline → TaskPipeline → Prop
  | execSuccess (m : Bool) (tq rq : Nat) (c : Option Nat) (r : Nat) (p : Bool) :
      PipeStep maxRetries m ⟨tq + 1, rq, c, r, p⟩ ⟨tq, rq, c, r + 1, p⟩
  | execFail (m : Bool) (tq rq : Nat) (c : Option Nat) (r : Nat) (p : Bool) :
      PipeStep maxRetries m ⟨tq + 1, rq, c, r, p⟩ ⟨tq, rq + 1, c, r + 1, p⟩
  | retryKeep (m : Bool) (tq rq : Nat) (c : Option Nat) (r : Nat) (p : Bool)
      (hle : c.getD 0 + 1 ≤ maxRetries) :
      PipeStep maxRetries m ⟨tq, rq + 1, c, r, p⟩
        ⟨tq + 1, rq, some (c.getD 0 + 1), r, p⟩
  | retryDrop (m : Bool) (tq rq : Nat) (c : Option Nat) (r : Nat) (p : Bool)
      (hgt : maxRetries < c.getD 0 + 1) :
      PipeStep maxRetries m ⟨tq, rq + 1, c, r, p⟩ ⟨tq, rq, c, r, p⟩
  | markTerminal (m : Bool) (tq rq : Nat) (c : Option Nat) (r : Nat) :
      PipeStep maxRetries m ⟨tq, rq, c, r, true⟩ ⟨tq, rq, c, r, false⟩
  | monitorPublish (tq rq : Nat) (c : Option Nat) (r : Nat) :
      PipeStep maxRetries true ⟨tq, rq, c, r, true⟩ ⟨tq + 1, rq, c, r, true⟩

/-- Pipeline states reachable from a single initial enqueue of the task. -/
inductive PipeReachable (maxRetries : Nat) (monitorOn : Bool) : TaskPipeline → Prop
  | init : PipeReachable maxRetries monitorOn initPipeline
  | step (s s' : TaskPipeline) :
      PipeReachable maxRetries monitorOn s → PipeStep maxRetries monitorOn s s' →
      PipeReachable maxRetries monitorOn s'

/-- Inductive invariant of the monitor-free pipeline: the stored counter never
exceeds `maxRetries`, and runs performed plus tasks messages outstanding stay
within counter + 1. -/
lemma pipe_invariant (maxRetries : Nat) (s : TaskPipeline)
    (h : PipeReachable maxRetries false s) :
    s.counter.getD 0 ≤ maxRetries ∧ s.runs + s.tasksQ ≤ s.counter.getD 0 + 1 := by
  induction h with
  | init => simp [initPipeline]
  | step s s' _ hstep ih =>
      cases hstep with
      | execSuccess m tq rq c r p => dsimp only at ih ⊢; omega
      | execFail m tq rq c r p => dsimp only at ih ⊢; omega
      | retryKeep m tq rq c r p hle => dsimp only at ih ⊢; simp only [Option.getD_some]; omega
      | retryDrop m tq rq c r p hgt => dsimp only at ih ⊢; omega
      | markTerminal m tq rq c r => dsimp only at ih ⊢; omega

/-- C3 (amended): in histories where `queue_tasks` receives a single initial
publish for the task and every later tasks message for it comes from the
retry consumer — no Monitor republication of the still-pending task — the
number of `docker.RunCommand` invocations for the task never exceeds
`maxRetries + 1`. -/
theorem c3_retry_budget_no_duplication (maxRetries : Nat) (s : TaskPipeline)
    (h : PipeReachable maxRetries false s) : s.runs ≤ maxRetries + 1 := by
  have := pipe_invariant maxRetries s h
  omega

/-- Witness for the amended C3: with `maxRetries = 0`, after the single run of
the task the state with `runs = 1` is reachable and `1 ≤ 0 + 1`. -/
theorem c3_retry_budget_no_duplication_witness :
    PipeReachable 0 false ⟨0, 0, none, 1, true⟩ ∧
    (TaskPipeline.mk 0 0 none 1 true).runs ≤ 0 + 1 := by
  have hreach : PipeReachable 0 false ⟨0, 0, none, 1, true⟩ :=
    PipeReachable.step initPipeline ⟨0, 0, none, 1, true⟩ PipeReachable.init
      (PipeStep.execSuccess false 0 0 none 0 true)
  exact ⟨hreach, c3_retry_budget_no_duplication 0 ⟨0, 0, none, 1, true⟩ hreach⟩

/-- Counterexample to C3 as stated: with `maxRetries = 0` and the Monitor
running, the Monitor republishes the still-pending task (scheduler.go lines
355-360), both tasks messages are executed, and the task accumulates
`runs = 2 > maxRetries + 1` sandbox invocations. -/
theorem c3_retry_budget_counterexample :
    PipeReachable 0 true ⟨0, 0, none, 2, true⟩ ∧
    ¬((TaskPipeline.mk 0 0 none 2 true).runs ≤ 0 + 1) := by
  have h1 : PipeReachable 0 true ⟨2, 0, none, 0, true⟩ :=
    PipeReachable.step initPipeline ⟨2, 0, none, 0, true⟩ PipeReachable.init
      (PipeStep.monitorPublish 1 0 none 0)
  have h2 : PipeReachable 0 true ⟨1, 0, none, 1, true⟩ :=
    PipeReachable.step ⟨2, 0, none, 0, true⟩ ⟨1, 0, none, 1, true⟩ h1
      (PipeStep.execSuccess true 1 0 none 0 true)
  have h3 : PipeReachable 0 true ⟨0, 0, none, 2, true⟩ :=
    PipeReachable.step ⟨1, 0, none, 1, true⟩ ⟨0, 0, none, 2, true⟩ h2
      (PipeStep.execSuccess true 0 0 none 1 true)
  exact ⟨h3, by decide⟩

/-- `task.UpdateTask` (business/domain/task/models.go): pointer fields are
modelled as options; `none` means the field is left untouched. -/
structure UpdateTask where
  status : Option Status
  result : Option String
  errMessage : Option String
deriving DecidableEq, Repr

/-- `Service.UpdateTask` (business/domain/task/task.go lines 104-125): each
non-nil field of the update overwrites the record's field; `UpdatedAt` is set
to the current instant. -/
def applyUpdate (t : Task) (ut : UpdateTask) (now : Int) : Task :=
  { t with
    status := ut.status.getD t.status
    errMessage := ut.errMessage.getD t.errMessage
    result := ut.result.getD t.result
    updatedAt := now }

/-- `Service.CreateTask` (task.go lines 47-61): a fresh record has
`Status = StatusPending` and zero-valued `Result` and `ErrMessage`. -/
def createTask (id userId : Nat) (command : String) (args : List String)
    (image environment : String) (scheduledAt now : Int) : Task :=
  { id := id
    userId := userId
    command := command
    args := args
    image := image
    environment := environment
    status := Status.pending
    result := ""
    errMessage := ""
    scheduledAt := scheduledAt
    createdAt := now
    updatedAt := now }

/-- Result of one `docker.RunCommand` invocation: stdout on success, the
error text otherwise. -/
abbrev SandboxResult := Except String String

/-- The executor's labelling of the task snapshot after the sandbox run
(scheduler.go lines 233-253): on error, set `ErrMessage` and `StatusFailed`
and route to `queue_retry`; on success, set `Result` and `StatusCompleted`
and route to `queue_success`.  The other fields of the snapshot pass through
unchanged. -/
def execOutcome (tsk : Task) (res : SandboxResult) : Task × Queue :=
  match res with
  | Except.error e => ({ tsk with errMessage := e, status := Status.failed }, Queue.retry)
  | Except.ok output => ({ tsk with result := output, status := Status.completed }, Queue.success)

/-- The update built by `handleSuccessMessage` (scheduler.go lines 463-466):
`Status` and `Result` from the message, `ErrMessage` untouched. -/
def successUpdate (tsk : Task) : UpdateTask :=
  { status := some tsk.status, result := some tsk.result, errMessage := none }

/-- The update built by `handleFailedMessage` (scheduler.go lines 434-437):
`Status` and `ErrMessage` from the message, `Result` untouched. -/
def failedUpdate (tsk : Task) : UpdateTask :=
  { status := some tsk.status, result := none, errMessage := some tsk.errMessage }

/-- A task snapshot as republished by the retry consumer after a failed
attempt: same task, with the executor's failure labelling still on it. -/
def retriedTask : Task :=
  { sampleTask with status := Status.failed, errMessage := "exit status 1" }

/-- A terminally completed record used in counterexamples. -/
def completedTask : Task :=
  { sampleTask with status := Status.completed, result := "done" }

/-- C4 (amended): a created record is pending with both `result` and
`errMessage` empty, and consumer updates only ever carry a terminal status;
once a pending record takes its first terminal update, at most one of
`result`/`errMessage` is non-empty: the success path ends completed with
`result` equal to the attempt's stdout (possibly empty) and `errMessage`
empty — even when the successful attempt was a retry whose message still
carried the previous failure text — and the failed path ends failed with
`errMessage` equal to the error text and `result` empty. -/
theorem c4_terminal_fields (rec m : Task) (out e : String) (now : Int)
    (hp : rec.status = Status.pending) (hr : rec.result = "")
    (he : rec.errMessage = "") :
    (∀ (id uid : Nat) (cmd : String) (args : List String) (img env : String)
        (sched created : Int),
      (createTask id uid cmd args img env sched created).status = Status.pending ∧
      (createTask id uid cmd args img env sched created).result = "" ∧
      (createTask id uid cmd args img env sched created).errMessage = "") ∧
    (∀ (t : Task) (res : SandboxResult),
      (execOutcome t res).1.status ≠ Status.pending) ∧
    (applyUpdate rec (successUpdate (execOutcome m (Except.ok out)).1) now).status
      = Status.completed ∧
    (applyUpdate rec (successUpdate (execOutcome m (Except.ok out)).1) now).result
      = out ∧
    (applyUpdate rec (successUpdate (execOutcome m (Except.ok out)).1) now).errMessage
      = "" ∧
    (applyUpdate rec (failedUpdate (execOutcome m (Except.error e)).1) now).status
      = Status.failed ∧
    (applyUpdate rec (failedUpdate (execOutcome m (Except.error e)).1) now).errMessage
      = e ∧
    (applyUpdate rec (failedUpdate (execOutcome m (Except.error e)).1) now).result
      = "" := by
  refine ⟨fun id uid cmd args img env sched created => ⟨rfl, rfl, rfl⟩, ?_, ?_, ?_, ?_, ?_, ?_, ?_⟩
  · intro t res
    cases res <;> simp [execOutcome]
  · simp [applyUpdate, successUpdate, execOutcome]
  · simp [applyUpdate, successUpdate, execOutcome]
  · simp [applyUpdate, successUpdate, execOutcome, he]
  · simp [applyUpdate, failedUpdate, execOutcome]
  · simp [applyUpdate, failedUpdate, execOutcome]
  · simp [applyUpdate, failedUpdate, execOutcome, hr]

/-- Witness for the amended C4: a pending record whose failed first attempt
left "exit status 1" on the republished message ends — after the successful
second attempt — completed, with the stdout as result and an empty error
message. -/
theorem c4_terminal_fields_witness :
    sampleTask.status = Status.pending ∧
    (applyUpdate sampleTask
      (successUpdate (execOutcome retriedTask (Except.ok "Mon Jan 1")).1) 1).status
        = Status.completed ∧
    (applyUpdate sampleTask
      (successUpdate (execOutcome retriedTask (Except.ok "Mon Jan 1")).1) 1).result
        = "Mon Jan 1" ∧
    (applyUpdate sampleTask
      (successUpdate (execOutcome retriedTask (Except.ok "Mon Jan 1")).1) 1).errMessage
        = "" := by
  have h := c4_terminal_fields sampleTask retriedTask "Mon Jan 1" "exit status 1" 1
    rfl rfl rfl
  exact ⟨rfl, h.2.2.1, h.2.2.2.1, h.2.2.2.2.1⟩

/-- Counterexample to C4 as stated: a successful run whose stdout is the
empty string ends in a terminal completed record in which neither `result`
nor `errMessage` is non-empty, so "exactly one non-empty" fails. -/
theorem c4_terminal_fields_counterexample :
    (applyUpdate sampleTask
      (successUpdate (execOutcome sampleTask (Except.ok "")).1) 1).status
        = Status.completed ∧
    ¬(((applyUpdate sampleTask
          (successUpdate (execOutcome sampleTask (Except.ok "")).1) 1).result ≠ "" ∧
        (applyUpdate sampleTask
          (successUpdate (execOutcome sampleTask (Except.ok "")).1) 1).errMessage = "") ∨
      ((applyUpdate sampleTask
          (successUpdate (execOutcome sampleTask (Except.ok "")).1) 1).result = "" ∧
        (applyUpdate sampleTask
          (successUpdate (execOutcome sampleTask (Except.ok "")).1) 1).errMessage ≠ "")) := by
  decide

/-- Effects of one outcome-consumer handler run: whether the delivery was
acked, the `TaskStore` update performed (`none` when the body is malformed or
the store call is skipped), and the retry store afterwards. -/
structure OutcomeEffects where
  acked : Bool
  update : Option UpdateTask
  store : RetryStore
deriving DecidableEq, Repr

/-- `Scheduler.handleSuccessMessage` (scheduler.go lines 449-476), store calls
succeeding: ack, decode (on failure log and return), then
`taskService.UpdateTask` with `Status` and `Result`.  The handler performs no
`RetryStore` operation, so the retry store passes through unchanged. -/
def handleSuccessMessage (store : RetryStore) (body : MsgBody) : OutcomeEffects :=
  match parseTask body with
  | none => { acked := true, update := none, store := store }
  | some tsk => { acked := true, update := some (successUpdate tsk), store := store }

/-- `Scheduler.handleFailedMessage` (scheduler.go lines 421-447), store calls
succeeding: ack, decode (on failure log and return), then
`taskService.UpdateTask` with `Status` and `ErrMessage`.  The handler performs
no `RetryStore` operation, so the retry store passes through unchanged. -/
def handleFailedMessage (store : RetryStore) (body : MsgBody) : OutcomeEffects :=
  match parseTask body with
  | none => { acked := true, update := none, store := store }
  | some tsk => { acked := true, update := some (failedUpdate tsk), store := store }

/-- C5 (amended): the success and failed consumers leave the `RetryStore`
exactly as they found it — neither handler deletes (or writes) any retry
counter — so after a terminal transition a `get` still returns the previously
stored count rather than the `NotFound` sentinel. -/
theorem c5_retry_counter_persists (store : RetryStore) (body : MsgBody) :
    (handleSuccessMessage store body).store = store ∧
    (handleFailedMessage store body).store = store := by
  cases body <;> exact ⟨rfl, rfl⟩

/-- Counterexample to C5 as stated: task 5 has a stored retry count of 1;
after the success consumer (and likewise the failed consumer) processes its
terminal delivery, the counter is still there and `get` does not return the
`NotFound` sentinel. -/
theorem c5_retry_counter_persists_counterexample :
    retryGet (handleSuccessMessage [(5, 1)] (MsgBody.task completedTask)).store 5
      = some 1 ∧
    retryGet (handleFailedMessage [(5, 1)] (MsgBody.task retriedTask)).store 5
      = some 1 ∧
    ¬(retryGet (handleSuccessMessage [(5, 1)] (MsgBody.task completedTask)).store 5
        = none) := by
  decide

/-- One observable action of the retry consumer. -/
inductive RetryLoopEvent where
  | published (q : Queue) (t : Task)
  | updatedTask (t : Task) (ut : UpdateTask)
deriving DecidableEq, Repr

/-- The actions of `handleFailedMessage` as seen from the retry consumer's
shutdown branch: no queue publish at all; a terminal failed update when the
body decodes. -/
def handleFailedMessageEvents (body : MsgBody) : List RetryLoopEvent :=
  match parseTask body with
  | none => []
  | some tsk => [RetryLoopEvent.updatedTask tsk (failedUpdate tsk)]

/-- `OnTaskRetry` consumer loop (scheduler.go lines 304-324).  Deliveries
arrive in order; `shutdownAt` is the index of the first delivery dequeued
after the shutdown latch closed (the latch never reopens).  A delivery
dequeued before shutdown is dispatched to `handleRetryMessage`; at the first
delivery dequeued after shutdown the consumer synchronously runs
`handleFailedMessage` — waiting on it via a local WaitGroup — and returns,
processing nothing further. -/
def onTaskRetryLoop (maxRetries shutdownAt : Nat) :
    RetryStore → List MsgBody → Nat → List RetryLoopEvent
  | _, [], _ => []
  | store, body :: rest, i =>
      if shutdownAt ≤ i then
        handleFailedMessageEvents body
      else
        let eff := handleRetryMessage maxRetries store body
        (eff.published.map fun p => RetryLoopEvent.published p.1 p.2) ++
          onTaskRetryLoop maxRetries shutdownAt eff.store rest (i + 1)

/-- C6: once the shutdown latch is closed, the retry consumer publishes
nothing to the tasks queue: the first delivery observed after shutdown is
handled synchronously by the failed path — a terminal failed update when it
decodes — and the consumer exits without touching the remaining deliveries. -/
theorem c6_retry_shutdown_no_tasks_publish (maxRetries shutdownAt : Nat)
    (store : RetryStore) (body : MsgBody) (rest : List MsgBody) (i : Nat)
    (h : shutdownAt ≤ i) :
    onTaskRetryLoop maxRetries shutdownAt store (body :: rest) i
      = handleFailedMessageEvents body ∧
    (∀ t : Task,
      RetryLoopEvent.published Queue.tasks t ∉
        onTaskRetryLoop maxRetries shutdownAt store (body :: rest) i) ∧
    (∀ t : Task, parseTask body = some t →
      onTaskRetryLoop maxRetries shutdownAt store (body :: rest) i
        = [RetryLoopEvent.updatedTask t (failedUpdate t)]) := by
  have hloop : onTaskRetryLoop maxRetries shutdownAt store (body :: rest) i
      = handleFailedMessageEvents body := by
    unfold onTaskRetryLoop
    rw [if_pos h]
  refine ⟨hloop, ?_, ?_⟩
  · intro t
    rw [hloop]
    cases body <;> simp [handleFailedMessageEvents, parseTask]
  · intro t ht
    rw [hloop]
    unfold handleFailedMessageEvents
    rw [ht]

/-- Witness for C6 at a concrete input: shutdown closed before the first
delivery; a decodable retry delivery is promoted to a terminal failed update
and no tasks-queue publish happens. -/
theorem c6_retry_shutdown_no_tasks_publish_witness :
    onTaskRetryLoop 1 0 [] [MsgBody.task retriedTask, MsgBody.task sampleTask] 0
      = [RetryLoopEvent.updatedTask retriedTask (failedUpdate retriedTask)] ∧
    RetryLoopEvent.published Queue.tasks retriedTask ∉
      onTaskRetryLoop 1 0 [] [MsgBody.task retriedTask, MsgBody.task sampleTask] 0 := by
  have h := c6_retry_shutdown_no_tasks_publish 1 0 []
    (MsgBody.task retriedTask) [MsgBody.task sampleTask] 0 (Nat.le_refl 0)
  exact ⟨h.2.2 retriedTask rfl, h.2.1 retriedTask⟩

/-- One minute in nanoseconds (`time.Minute`), the monitor's due window. -/
def dueWindow : Int := 60 * nsPerSecond

/-- `Repository.GetDueTasks` of the in-memory task store: iterate the stored
tasks and keep exactly those with `ScheduledAt.Sub(from) <= time.Minute`.  No
status filter appears in the code. -/
def getDueTasks (tasks : List Task) (fromT : Int) : List Task :=
  tasks.filter (fun tsk => tsk.scheduledAt - fromT ≤ dueWindow)

/-- C9 (amended): the due-tasks query returns exactly the stored tasks whose
`scheduledAt - now` is at most the one-minute due window, regardless of their
status. -/
theorem c9_due_tasks_membership (tasks : List Task) (now : Int) (t : Task) :
    t ∈ getDueTasks tasks now ↔ t ∈ tasks ∧ t.scheduledAt - now ≤ dueWindow := by
  simp [getDueTasks, List.mem_filter]

/-- Counterexample to C9 as stated: a task already completed and due now is
returned by the query, though the claim says terminal tasks never are. -/
theorem c9_due_tasks_counterexample :
    completedTask.status = Status.completed ∧
    getDueTasks [completedTask] 0 = [completedTask] := by
  decide

end TaskSched
